import Mathlib

/-!
Verification development for the ai-trader repository.

The core trading engine (the `engine/` Python package: `state.py`, `risk.py`,
`engine.py`, `config.py`, …) is described by the repository's documentation
(`v3/ARCHITECTURE.md`, `v4/PROJECT_STATE.md`, the V11 README) but its source
is not present in the repository snapshot; the engine is therefore modelled
from the specification (spec.md §3–§4.4), faithful to its words, with exact
rational arithmetic in place of floats.  The dashboard statistics hook
(`web/hooks/useDashboardStats.ts`) is present and is embedded directly.
-/

set_option autoImplicit false

namespace AiTrader

/-- Modelled from the spec: the side of a position (`Position.side`). -/
inductive Side where
  | long
  | short
deriving DecidableEq, Repr


/-- Modelled from the spec: `Signal.direction : LONG | SHORT | NONE` (§3). -/
inductive Direction where
  | LONG
  | SHORT
  | NONE
deriving DecidableEq, Repr


/-- Modelled from the spec: `EngineState` enum
`WAIT | ARM | ENTRY | HOLD | EXIT | COOLDOWN` (§3, §4.4);
the engine code (`state.py`) is missing from the snapshot. -/
inductive EngineState where
  | WAIT
  | ARM
  | ENTRY
  | HOLD
  | EXIT
  | COOLDOWN
deriving DecidableEq, Repr


/-- Modelled from the spec: market regime `TRENDING | CHOP | LOW_VOL` (§4.4). -/
inductive Regime where
  | TRENDING
  | CHOP
  | LOW_VOL
deriving DecidableEq, Repr


/-- Modelled from the spec: the closed set of exit reasons
`STOP_LOSS, SIGNAL_DECAY, TAKE_PROFIT, END_OF_RUN` (§7). -/
inductive ExitReason where
  | STOP_LOSS
  | SIGNAL_DECAY
  | TAKE_PROFIT
  | END_OF_RUN
deriving DecidableEq, Repr


/-- Modelled from the spec: the reasons `validate_entry` rejects (§4.3):
max concurrent positions, max correlated-bucket exposure, symbol in active
cooldown, drawdown ceiling, CHOP regime gate. -/
inductive RejectReason where
  | maxPositions
  | bucketExposure
  | inCooldown
  | drawdown
  | chopRegime
deriving DecidableEq, Repr


/-- Modelled from the spec: `validate_entry(signal, context) -> Approved |
Rejected(reason)` (§4.3). -/
inductive EntryDecision where
  | approved
  | rejected (r : RejectReason)
deriving DecidableEq, Repr


/-- Modelled from the spec: the immutable run configuration (§6):
`arm_threshold`, `arm_persistence`, `decay_persistence`, ATR stop
multipliers, profit-ratchet thresholds, risk_pct, exposure limits,
cooldown base duration and loss-streak backoff, fee %, slippage %.
The engine config code (`engine/config.py`) is missing from the snapshot. -/
structure EngineConfig where
  arm_threshold : ℚ
  arm_persistence : Nat
  decay_persistence : Nat
  decay_threshold : ℚ
  breakeven_pct : ℚ
  lock_pct : ℚ
  lock_fraction : ℚ
  risk_pct : ℚ
  max_notional : ℚ
  max_exposure : ℚ
  max_positions : Nat
  cooldown_base : Nat
  cooldown_step : Nat
  cooldown_max : Nat
  trading_fee_pct : ℚ
  slippage_pct : ℚ
deriving DecidableEq, Repr


/-- Modelled from the spec: the per-tick input an engine instance consumes:
the tick's price (§3 `Tick`), the indicator values it needs (ATR,
acceleration; §4.1), the strategy layer's signal for this tick (§4.2), the
global regime (§4.4), and the shared `RiskContext` reads made during entry
validation (§4.3): other engines' open-position count and aggregate
notional, whether the symbol is in an active cooldown, and whether the
account drawdown ceiling is exceeded. -/
structure Tick where
  price : ℚ
  atr : ℚ
  sigDir : Direction
  sigStrength : ℚ
  accel : ℚ
  regime : Regime
  othersOpen : Nat
  othersNotional : ℚ
  symbolCooldown : Bool
  drawdownExceeded : Bool
deriving DecidableEq, Repr


/-- Modelled from the spec: `Position` (§3): `{side, entry_price, size,
stop_price, high_watermark, low_watermark, opened_at}`. -/
structure Position where
  side : Side
  entry_price : ℚ
  size : ℚ
  stop_price : ℚ
  high_watermark : ℚ
  low_watermark : ℚ
  opened_at : Nat
deriving DecidableEq, Repr


/-- Modelled from the spec: `TradeRecord` (§3): append-only, immutable once
written, created at EXIT. -/
structure TradeRecord where
  side : Side
  entry_price : ℚ
  exit_price : ℚ
  size : ℚ
  pnl : ℚ
  entry_time : Nat
  exit_time : Nat
  exit_reason : ExitReason
deriving DecidableEq, Repr


/-- Modelled from the spec: the full mutable state of one Engine instance
(one per (symbol, strategy) pair): its `EngineState`, the open positions it
owns, the ARM persistence counter and armed direction, the signal-decay
counter, the pending exit reason chosen on the HOLD→EXIT transition, the
remaining cooldown dwell, the per-key `consecutive_losses` counter
(§3 `RiskContext`), equity, emitted trade records, and the engine's own
tick clock (engine time, not wall-clock). -/
structure Engine where
  cfg : EngineConfig
  state : EngineState
  openPositions : List Position
  armDir : Direction
  armCount : Nat
  decayCount : Nat
  pendingExit : ExitReason
  cooldownLeft : Nat
  consecutive_losses : Nat
  equity : ℚ
  records : List TradeRecord
  now : Nat
deriving DecidableEq, Repr


/-- Modelled from the spec: the price-scaled ATR stop multiplier (§4.4
ENTRY): 2.0 when price > $1.00, 3.0 when price ≤ $1.00. -/
def atrMultiplier (price : ℚ) : ℚ :=
  if 1 < price then 2 else 3


/-- Modelled from the spec: stop distance computed via the ATR multiplier
(§4.4 ENTRY). -/
def stopDistance (price atr : ℚ) : ℚ :=
  atrMultiplier price * atr


/-- Modelled from the spec: `size_position(equity, risk_pct, stop_distance)`
(§4.3): fixed-fractional size `(equity * risk_pct) / stop_distance`, clamped
to the configured maximum notional per position and to the remaining
aggregate-exposure budget (notional measured as size × price). -/
def size_position (cfg : EngineConfig) (equity risk_pct stop_dist price curExposure : ℚ) : ℚ :=
  min ((equity * risk_pct) / stop_dist)
    (min (cfg.max_notional / price) ((cfg.max_exposure - curExposure) / price))


/-- Modelled from the spec: `validate_entry` (§4.3) rejects when max
concurrent positions reached, max correlated-bucket exposure reached, the
symbol is in active cooldown, the drawdown ceiling is exceeded, or the
regime gate sees CHOP; otherwise approves. -/
def validate_entry (cfg : EngineConfig) (t : Tick) (ownOpen : Nat) : EntryDecision :=
  if cfg.max_positions ≤ t.othersOpen + ownOpen then .rejected .maxPositions
  else if cfg.max_exposure ≤ t.othersNotional then .rejected .bucketExposure
  else if t.symbolCooldown then .rejected .inCooldown
  else if t.drawdownExceeded then .rejected .drawdown
  else if t.regime = .CHOP then .rejected .chopRegime
  else .approved


/-- Modelled from the spec: cooldown dwell extended by the loss streak
("linear or exponential backoff", §4.3), capped at the configured
maximum. -/
def cooldownDuration (cfg : EngineConfig) (losses : Nat) : Nat :=
  min (cfg.cooldown_base + cfg.cooldown_step * losses) cfg.cooldown_max


/-- Modelled from the spec: `on_trade_closed` updating
`consecutive_losses` (§4.3): a losing trade increments the counter, a
winning trade resets it to zero. -/
def lossesAfter (losses : Nat) (pnl : ℚ) : Nat :=
  if pnl < 0 then losses + 1 else 0


/-- Modelled from the spec: HOLD updates the position's high/low
watermarks on every tick (§4.4 HOLD). -/
def updateWatermarks (p : Position) (price : ℚ) : Position :=
  { p with high_watermark := max p.high_watermark price,
           low_watermark := min p.low_watermark price }


/-- Modelled from the spec: hard stop breach test (§4.4 HOLD (a)). -/
def stopBreached (p : Position) (price : ℚ) : Bool :=
  match p.side with
  | .long => price ≤ p.stop_price
  | .short => p.stop_price ≤ price


/-- Modelled from the spec: the profit-ratchet rule (§4.4 HOLD (b)): once
unrealized gain crosses the breakeven threshold, move the stop to
breakeven; once it crosses the lock threshold, ratchet the stop to lock in
a fraction of the profit; ratchets only tighten (max for longs, min for
shorts), never loosen. -/
def ratchetStop (cfg : EngineConfig) (p : Position) (price : ℚ) : ℚ :=
  match p.side with
  | .long =>
      let gain := (price - p.entry_price) / p.entry_price
      let s1 := if cfg.breakeven_pct ≤ gain then max p.stop_price p.entry_price
                else p.stop_price
      if cfg.lock_pct ≤ gain then
        max s1 (p.entry_price + cfg.lock_fraction * (price - p.entry_price))
      else s1
  | .short =>
      let gain := (p.entry_price - price) / p.entry_price
      let s1 := if cfg.breakeven_pct ≤ gain then min p.stop_price p.entry_price
                else p.stop_price
      if cfg.lock_pct ≤ gain then
        min s1 (p.entry_price - cfg.lock_fraction * (p.entry_price - price))
      else s1


/-- Modelled from the spec: signal decay test (§4.4 HOLD (c)): the
originating signal has reversed or decayed below the minimum confidence. -/
def signalDecayed (cfg : EngineConfig) (p : Position) (t : Tick) : Bool :=
  match p.side with
  | .long => decide (t.sigDir ≠ .LONG) || decide (t.sigStrength < cfg.decay_threshold)
  | .short => decide (t.sigDir ≠ .SHORT) || decide (t.sigStrength < cfg.decay_threshold)


/-- Modelled from the spec: the armed direction as a position side
(`ARM` is only entered on a directional signal, §4.4). -/
def armSide (d : Direction) : Side :=
  if d = .SHORT then .short else .long


/-- Modelled from the spec: §4.4 ENTRY — simulated fill at the last price
adjusted by configured slippage, stop distance via the ATR multiplier,
size via `size_position`, creating the `Position`. -/
def entryPosition (cfg : EngineConfig) (equity curExposure : ℚ) (side : Side)
    (t : Tick) (now : Nat) : Position :=
  let fill := match side with
    | .long => t.price * (1 + cfg.slippage_pct)
    | .short => t.price * (1 - cfg.slippage_pct)
  let dist := stopDistance t.price t.atr
  let sz := size_position cfg equity cfg.risk_pct dist t.price curExposure
  let stop := match side with
    | .long => fill - dist
    | .short => fill + dist
  { side := side, entry_price := fill, size := sz, stop_price := stop,
    high_watermark := fill, low_watermark := fill, opened_at := now }


/-- Modelled from the spec: §4.4 EXIT — close at the simulated fill price
(slippage-adjusted), realized PnL accounting for the configured fee. -/
def closeTrade (cfg : EngineConfig) (p : Position) (price : ℚ) (now : Nat)
    (reason : ExitReason) : TradeRecord :=
  let fillExit := match p.side with
    | .long => price * (1 - cfg.slippage_pct)
    | .short => price * (1 + cfg.slippage_pct)
  let gross := match p.side with
    | .long => (fillExit - p.entry_price) * p.size
    | .short => (p.entry_price - fillExit) * p.size
  let fees := cfg.trading_fee_pct * (p.entry_price * p.size + fillExit * p.size)
  { side := p.side, entry_price := p.entry_price, exit_price := fillExit,
    size := p.size, pnl := gross - fees, entry_time := p.opened_at,
    exit_time := now, exit_reason := reason }


/-- Modelled from the spec: one tick of the trading state machine (§4.4),
whose code (`engine/state.py`, `engine/engine.py`) is missing from the
snapshot.  WAIT arms on a directional signal crossing the arm threshold;
ARM requires the same direction to persist with non-negative acceleration
for `arm_persistence` consecutive ticks, then consults `validate_entry`;
ENTRY is a single-tick transition creating the position; HOLD updates
watermarks then checks, in priority order, stop breach, profit ratchet and
signal decay; EXIT emits the `TradeRecord`, notifies the risk layer and
enters COOLDOWN; COOLDOWN dwells then returns to WAIT. -/
def step (e0 : Engine) (t : Tick) : Engine :=
  let e := { e0 with now := e0.now + 1 }
  match e.state with
  | .WAIT =>
      if t.sigDir ≠ .NONE ∧ e.cfg.arm_threshold ≤ t.sigStrength then
        { e with state := .ARM, armDir := t.sigDir, armCount := 1 }
      else e
  | .ARM =>
      if t.sigDir = e.armDir ∧ e.cfg.arm_threshold ≤ t.sigStrength ∧ 0 ≤ t.accel then
        let c := e.armCount + 1
        if e.cfg.arm_persistence ≤ c then
          match validate_entry e.cfg t e.openPositions.length with
          | .approved => { e with state := .ENTRY, armCount := c }
          | .rejected .inCooldown =>
              { e with state := .COOLDOWN, armCount := 0,
                       cooldownLeft := cooldownDuration e.cfg e.consecutive_losses }
          | .rejected _ => { e with state := .WAIT, armCount := 0 }
        else { e with armCount := c }
      else { e with state := .WAIT, armCount := 0 }
  | .ENTRY =>
      let p := entryPosition e.cfg e.equity t.othersNotional (armSide e.armDir) t e.now
      { e with state := .HOLD, openPositions := [p], decayCount := 0 }
  | .HOLD =>
      match e.openPositions with
      | [] => e
      | p :: _ =>
          let p := updateWatermarks p t.price
          if stopBreached p t.price then
            { e with state := .EXIT, openPositions := [p],
                     pendingExit := .STOP_LOSS, decayCount := 0 }
          else
            let p := { p with stop_price := ratchetStop e.cfg p t.price }
            let dc := if signalDecayed e.cfg p t then e.decayCount + 1 else 0
            if e.cfg.decay_persistence ≤ dc then
              { e with state := .EXIT, openPositions := [p],
                       pendingExit := .SIGNAL_DECAY, decayCount := 0 }
            else { e with openPositions := [p], decayCount := dc }
  | .EXIT =>
      match e.openPositions with
      | [] => { e with state := .COOLDOWN,
                       cooldownLeft := cooldownDuration e.cfg e.consecutive_losses }
      | p :: _ =>
          let r := closeTrade e.cfg p t.price e.now e.pendingExit
          let losses := lossesAfter e.consecutive_losses r.pnl
          { e with state := .COOLDOWN, openPositions := [],
                   records := e.records ++ [r],
                   consecutive_losses := losses,
                   equity := e.equity + r.pnl,
                   cooldownLeft := cooldownDuration e.cfg losses }
  | .COOLDOWN =>
      if e.cooldownLeft ≤ 1 then { e with state := .WAIT, cooldownLeft := 0 }
      else { e with cooldownLeft := e.cooldownLeft - 1 }


/-- Modelled from the spec: a freshly-initialized Engine instance: WAIT
state, no open position, zeroed counters (§4.4). -/
def initEngine (cfg : EngineConfig) (equity0 : ℚ) : Engine :=
  { cfg := cfg, state := .WAIT, openPositions := [], armDir := .NONE,
    armCount := 0, decayCount := 0, pendingExit := .END_OF_RUN,
    cooldownLeft := 0, consecutive_losses := 0, equity := equity0,
    records := [], now := 0 }


/-- Modelled from the spec: replaying a tick sequence through an engine
(§8 determinism): a pure fold of `step`. -/
def run (e : Engine) : List Tick → Engine
  | [] => e
  | t :: ts => run (step e t) ts


/-- The sequence of states the engine passes through while replaying a
tick sequence (one entry per processed tick). -/
def runStates (e : Engine) : List Tick → List EngineState
  | [] => []
  | t :: ts => (step e t).state :: runStates (step e t) ts


/-- The directed adjacency of the §4.4 state graph: WAIT→ARM,
ARM→ENTRY/WAIT/COOLDOWN, ENTRY→HOLD, HOLD→EXIT, EXIT→COOLDOWN,
COOLDOWN→WAIT. -/
def adjacentB : EngineState → EngineState → Bool
  | .WAIT, .ARM => true
  | .ARM, .ENTRY => true
  | .ARM, .WAIT => true
  | .ARM, .COOLDOWN => true
  | .ENTRY, .HOLD => true
  | .HOLD, .EXIT => true
  | .EXIT, .COOLDOWN => true
  | .COOLDOWN, .WAIT => true
  | _, _ => false


/-- A concrete example configuration (arm threshold 1%, persistence 2,
decay persistence 2, breakeven +0.75%, lock +3%, risk 1%, generous
exposure limits, cooldown base 2 extended by 1 per loss capped at 10,
no fees or slippage), used to exercise the model on concrete runs. -/
def exCfg : EngineConfig :=
  { arm_threshold := 1/100, arm_persistence := 2, decay_persistence := 2,
    decay_threshold := 1/100, breakeven_pct := 3/400, lock_pct := 3/100,
    lock_fraction := 1/2, risk_pct := 1/100, max_notional := 1000000,
    max_exposure := 1000000, max_positions := 2, cooldown_base := 2,
    cooldown_step := 1, cooldown_max := 10, trading_fee_pct := 0,
    slippage_pct := 0 }


/-- A concrete tick with the given price, signal direction and strength;
ATR 1, positive acceleration, TRENDING regime, an otherwise idle risk
context. -/
def mkTick (price : ℚ) (d : Direction) (s : ℚ) : Tick :=
  { price := price, atr := 1, sigDir := d, sigStrength := s, accel := 1,
    regime := .TRENDING, othersOpen := 0, othersNotional := 0,
    symbolCooldown := false, drawdownExceeded := false }


/-- A five-tick sequence driving the example engine through a full trade:
two arming ticks at $10, the entry tick, then a drop to $7 breaching the
$8 stop. -/
def exTicks : List Tick :=
  [ mkTick 10 .LONG 1, mkTick 10 .LONG 1, mkTick 10 .LONG 1,
    mkTick 7 .LONG 1, mkTick 7 .LONG 1 ]


/-- The position-ownership invariant: an engine holds exactly one open
position in HOLD and EXIT and none otherwise. -/
def posInv (e : Engine) : Prop :=
  ((e.state = .HOLD ∨ e.state = .EXIT) → e.openPositions.length = 1) ∧
  (¬(e.state = .HOLD ∨ e.state = .EXIT) → e.openPositions = [])


/-- A concrete armed engine (one persistence tick seen). -/
def armEngine : Engine :=
  { initEngine exCfg 1000 with state := .ARM, armDir := .LONG, armCount := 1 }


/-- A concrete confirming tick whose risk context reports the symbol in
active cooldown. -/
def cooldownTick : Tick :=
  { mkTick 10 .LONG 1 with symbolCooldown := true }


/-- The position the example engine opens on tick 3. -/
def exPos : Position :=
  { side := .long, entry_price := 10, size := 5, stop_price := 8,
    high_watermark := 10, low_watermark := 10, opened_at := 3 }


/-- The same position after the breaching tick updates its low
watermark. -/
def exPosBreach : Position :=
  { exPos with low_watermark := 7 }


/-- The trade record the example run emits. -/
def exRecord : TradeRecord :=
  { side := .long, entry_price := 10, exit_price := 7, size := 5, pnl := -15,
    entry_time := 3, exit_time := 5, exit_reason := .STOP_LOSS }


/-- Example run, after tick 1: armed. -/
def exE1 : Engine :=
  { initEngine exCfg 1000 with
    state := .ARM, armDir := .LONG, armCount := 1, now := 1 }


/-- Example run, after tick 2: persistence confirmed, entry approved. -/
def exE2 : Engine := { exE1 with state := .ENTRY, armCount := 2, now := 2 }


/-- Example run, after tick 3: position opened, holding. -/
def exE3 : Engine := { exE2 with state := .HOLD, openPositions := [exPos], now := 3 }


/-- Example run, after tick 4: stop breached, exiting. -/
def exE4 : Engine :=
  { exE3 with
    state := .EXIT, openPositions := [exPosBreach],
    pendingExit := .STOP_LOSS, now := 4 }


/-- Example run, after tick 5: trade closed and recorded, cooling down. -/
def exE5 : Engine :=
  { exE4 with
    state := .COOLDOWN, openPositions := [], records := [exRecord],
    consecutive_losses := 1, equity := 985, cooldownLeft := 3, now := 5 }


/-- From `web/hooks/useDashboardStats.ts` (fetchStats): `Number(t.pnl) || 0`
— a missing or non-numeric `pnl` (modelled as `none`) is coerced to 0; a
numeric value passes through (`0 || 0` is 0, so zero is unchanged). -/
def coercePnl : Option ℚ → ℚ
  | none => 0
  | some x => x


/-- From `web/hooks/useDashboardStats.ts` line 40:
`closedTrades.reduce((acc, t) => acc + (Number(t.pnl) || 0), 0)`. -/
def totalPnL (closedTrades : List (Option ℚ)) : ℚ :=
  closedTrades.foldl (fun acc t => acc + coercePnl t) 0


/-- From `web/hooks/useDashboardStats.ts` line 41:
`closedTrades.filter(t => (Number(t.pnl) || 0) > 0).length`. -/
def wins (closedTrades : List (Option ℚ)) : Nat :=
  (closedTrades.filter (fun t => decide (0 < coercePnl t))).length


/-- From `web/hooks/useDashboardStats.ts` line 43:
`total > 0 ? (wins / total) * 100 : 0`. -/
def winRate (closedTrades : List (Option ℚ)) : ℚ :=
  if 0 < closedTrades.length then
    ((wins closedTrades : ℚ) / (closedTrades.length : ℚ)) * 100
  else 0

/-- Every single step of the machine either stays in place or follows one
edge of the §4.4 graph. -/
theorem step_state_cases (e : Engine) (t : Tick) :
    (step e t).state = e.state ∨ adjacentB e.state (step e t).state = true := by
  cases h : e.state <;>
    simp only [step, h] <;>
    (repeat' split) <;>
    simp [adjacentB, h]


/-- ENTRY is a single-tick transition: processing a tick in ENTRY always
moves to HOLD. -/
theorem step_entry_state (e : Engine) (t : Tick) (h : e.state = .ENTRY) :
    (step e t).state = .HOLD := by
  simp only [step, h]


/-- C1: For every state of an Engine instance and every processed tick,
the EngineState after the tick is either unchanged or adjacent to the
previous state in the §4.4 graph (WAIT→ARM, ARM→ENTRY/WAIT/COOLDOWN,
ENTRY→HOLD, HOLD→EXIT, EXIT→COOLDOWN, COOLDOWN→WAIT); no transition skips
a state, and the machine never remains in ENTRY across more than one
tick. -/
theorem state_graph_soundness (e : Engine) (t : Tick) :
    ((step e t).state = e.state ∨ adjacentB e.state (step e t).state = true) ∧
    (e.state = .ENTRY → (step e t).state ≠ .ENTRY) := by
  refine ⟨step_state_cases e t, fun h => ?_⟩
  rw [step_entry_state e t h]
  simp


/-- Closed instance of C1: a concrete ENTRY-state engine leaves ENTRY on
the next tick. -/
theorem state_graph_soundness_witness :
    (step { initEngine exCfg 1000 with state := .ENTRY, armDir := .LONG }
        (mkTick 10 .LONG 1)).state ≠ .ENTRY :=
  (state_graph_soundness { initEngine exCfg 1000 with state := .ENTRY, armDir := .LONG }
    (mkTick 10 .LONG 1)).2 rfl


/-- A freshly-initialized engine satisfies the position invariant. -/
theorem posInv_init (cfg : EngineConfig) (q0 : ℚ) : posInv (initEngine cfg q0) := by
  constructor <;> simp [initEngine]


/-- One engine step preserves the position invariant. -/
theorem posInv_step (e : Engine) (t : Tick) (h : posInv e) : posInv (step e t) := by
  obtain ⟨h1, h2⟩ := h
  cases hs : e.state <;> simp only [hs, false_or, or_false] at h1 h2
  case WAIT =>
    have hop : e.openPositions = [] := h2 (by simp)
    simp only [step, hs]
    split <;> constructor <;> simp [hop]
  case ARM =>
    have hop : e.openPositions = [] := h2 (by simp)
    simp only [step, hs]
    (repeat' split) <;> constructor <;> simp [hop]
  case ENTRY =>
    simp only [step, hs]
    constructor <;> simp
  case HOLD =>
    have hop : e.openPositions.length = 1 := h1 (by simp)
    simp only [step, hs]
    cases hl : e.openPositions with
    | nil => simp [hl] at hop
    | cons p tl =>
      simp only
      (repeat' split) <;> constructor <;> simp
  case EXIT =>
    simp only [step, hs]
    cases hl : e.openPositions with
    | nil => simp [hl] at h1
    | cons p tl =>
      simp only
      constructor <;> simp
  case COOLDOWN =>
    have hop : e.openPositions = [] := h2 (by simp)
    simp only [step, hs]
    split <;> constructor <;> simp [hop]


/-- Replaying any tick sequence preserves the position invariant. -/
theorem posInv_run (e : Engine) (ticks : List Tick) (h : posInv e) :
    posInv (run e ticks) := by
  induction ticks generalizing e with
  | nil => exact h
  | cons t ts ih => exact ih _ (posInv_step e t h)


/-- A step that is not processing the ENTRY state never creates a
position. -/
theorem step_no_create (e : Engine) (t : Tick) (h : e.state ≠ .ENTRY) :
    (step e t).openPositions.length ≤ e.openPositions.length := by
  cases hs : e.state <;> simp only [step, hs] <;> try simp
  case WAIT => split <;> simp
  case ARM => (repeat' split) <;> simp
  case ENTRY => exact absurd hs h
  case HOLD =>
    cases hl : e.openPositions with
    | nil => simp
    | cons p tl => simp only; (repeat' split) <;> simp
  case EXIT =>
    cases hl : e.openPositions with
    | nil => simp
    | cons p tl => simp
  case COOLDOWN => split <;> simp


/-- C2: along every execution from a freshly-initialized engine at most
one Position is open at every point, and a step can only create a
position while processing the ENTRY transition. -/
theorem at_most_one_position :
    (∀ (cfg : EngineConfig) (q0 : ℚ) (ticks : List Tick),
      (run (initEngine cfg q0) ticks).openPositions.length ≤ 1) ∧
    (∀ (e : Engine) (t : Tick),
      e.openPositions.length < (step e t).openPositions.length → e.state = .ENTRY) := by
  constructor
  · intro cfg q0 ticks
    obtain ⟨h1, h2⟩ := posInv_run (initEngine cfg q0) ticks (posInv_init cfg q0)
    by_cases h : (run (initEngine cfg q0) ticks).state = .HOLD ∨
        (run (initEngine cfg q0) ticks).state = .EXIT
    · exact le_of_eq (h1 h)
    · simp [h2 h]
  · intro e t h
    by_contra hne
    exact absurd (step_no_create e t hne) (not_le.mpr h)


/-- Closed instance of C2: the hypothesis of the creation conjunct is
satisfiable — a concrete ENTRY-state engine does create a position. -/
theorem at_most_one_position_witness :
    ({ initEngine exCfg 1000 with state := .ENTRY, armDir := .LONG } : Engine).state =
      .ENTRY :=
  at_most_one_position.2
    { initEngine exCfg 1000 with state := .ENTRY, armDir := .LONG }
    (mkTick 10 .LONG 1) (by simp [step, initEngine])


/-- C3: for a fixed configuration and a fixed finite tick sequence, two
replays through freshly-initialized Engine instances produce identical
sequences of state transitions and identical sequences of TradeRecords:
the embedded engine is a pure function of configuration and tick
sequence, with no wall-clock or other hidden input. -/
theorem replay_determinism (cfg : EngineConfig) (q0 : ℚ) (ticks : List Tick)
    (e1 e2 : Engine) (h1 : e1 = initEngine cfg q0) (h2 : e2 = initEngine cfg q0) :
    runStates e1 ticks = runStates e2 ticks ∧
    (run e1 ticks).records = (run e2 ticks).records := by
  subst h1
  subst h2
  exact ⟨rfl, rfl⟩


/-- Closed instance of C3 at a concrete configuration and tick list. -/
theorem replay_determinism_witness :
    runStates (initEngine exCfg 1000) exTicks = runStates (initEngine exCfg 1000) exTicks ∧
    (run (initEngine exCfg 1000) exTicks).records =
      (run (initEngine exCfg 1000) exTicks).records :=
  replay_determinism exCfg 1000 exTicks _ _ rfl rfl


/-- The ratchet never lowers a long position's stop. -/
theorem le_ratchetStop (cfg : EngineConfig) (p : Position) (price : ℚ)
    (h : p.side = .long) : p.stop_price ≤ ratchetStop cfg p price := by
  simp only [ratchetStop, h]
  split <;> split <;>
    simp [le_max_iff, le_refl, true_or, or_true]


/-- The ratchet never raises a short position's stop. -/
theorem ratchetStop_le (cfg : EngineConfig) (p : Position) (price : ℚ)
    (h : p.side = .short) : ratchetStop cfg p price ≤ p.stop_price := by
  simp only [ratchetStop, h]
  split <;> split <;>
    simp [min_le_iff, le_refl, true_or, or_true]


/-- The ratchet does not change the position's side, nor do watermark
updates change side or stop. -/
theorem updateWatermarks_fields (p : Position) (price : ℚ) :
    (updateWatermarks p price).side = p.side ∧
    (updateWatermarks p price).stop_price = p.stop_price := by
  simp [updateWatermarks]


/-- The ratchet is monotone in the favorable direction on both sides. -/
theorem ratchetStop_mono (cfg : EngineConfig) (p : Position) (price : ℚ) :
    (p.side = .long → p.stop_price ≤ ratchetStop cfg p price) ∧
    (p.side = .short → ratchetStop cfg p price ≤ p.stop_price) :=
  ⟨le_ratchetStop cfg p price, ratchetStop_le cfg p price⟩


/-- C4: a HOLD-tick update never moves the stop in the unfavorable
direction: if the engine is in HOLD holding position `p` and after the
tick it holds `p'` (whether it stayed in HOLD or moved to EXIT), then the
side is unchanged and the stop is non-decreasing for a long position and
non-increasing for a short one; iterated over a HOLD episode this makes
the stop sequence monotone. -/
theorem stop_monotonic (e : Engine) (t : Tick) (p p' : Position)
    (hs : e.state = .HOLD) (hp : e.openPositions = [p])
    (hp' : (step e t).openPositions = [p']) :
    p'.side = p.side ∧
    (p.side = .long → p.stop_price ≤ p'.stop_price) ∧
    (p.side = .short → p'.stop_price ≤ p.stop_price) := by
  simp only [step, hs, hp] at hp'
  (repeat' split at hp') <;>
    simp only [List.cons.injEq, and_true] at hp' <;> subst hp' <;>
    refine ⟨by simp [updateWatermarks], fun h => ?_, fun h => ?_⟩ <;>
    first
      | (simp [updateWatermarks]; done)
      | exact (ratchetStop_mono e.cfg _ t.price).1 h
      | exact (ratchetStop_mono e.cfg _ t.price).2 h


/-- C5: the stop distance is exactly 2.0×ATR when the price is strictly
greater than $1.00 and exactly 3.0×ATR when the price is at most $1.00 (a
price of exactly $1.00 uses the 3.0 multiplier), and the ENTRY transition
places the created position's stop exactly one stop distance below (long)
or above (short) the fill price. -/
theorem atr_stop_policy :
    (∀ price atr : ℚ, 1 < price → stopDistance price atr = 2 * atr) ∧
    (∀ price atr : ℚ, price ≤ 1 → stopDistance price atr = 3 * atr) ∧
    (∀ atr : ℚ, stopDistance 1 atr = 3 * atr) ∧
    (∀ (cfg : EngineConfig) (equity cur : ℚ) (t : Tick) (n : Nat),
      (entryPosition cfg equity cur .long t n).stop_price =
        (entryPosition cfg equity cur .long t n).entry_price - stopDistance t.price t.atr) ∧
    (∀ (cfg : EngineConfig) (equity cur : ℚ) (t : Tick) (n : Nat),
      (entryPosition cfg equity cur .short t n).stop_price =
        (entryPosition cfg equity cur .short t n).entry_price + stopDistance t.price t.atr) := by
  refine ⟨fun price atr h => ?_, fun price atr h => ?_, fun atr => ?_,
    fun cfg equity cur t n => ?_, fun cfg equity cur t n => ?_⟩
  · simp [stopDistance, atrMultiplier, h]
  · simp [stopDistance, atrMultiplier, not_lt.mpr h]
  · simp [stopDistance, atrMultiplier]
  · simp [entryPosition]
  · simp [entryPosition]


/-- Closed instance of C5: prices $2 and $1 with ATR 5. -/
theorem atr_stop_policy_witness :
    stopDistance 2 5 = 2 * 5 ∧ stopDistance 1 5 = 3 * 5 :=
  ⟨atr_stop_policy.1 2 5 (by norm_num), atr_stop_policy.2.1 1 5 (by norm_num)⟩


/-- C6: with a positive stop distance (and price), `size_position` returns
the fixed-fractional size `(equity * risk_pct) / stop_distance` reduced
only by the notional and aggregate-exposure clamps: the result never
exceeds the fixed-fractional size, its notional respects the per-position
maximum, adding it to the current exposure respects the aggregate maximum,
and whenever neither clamp binds the result is exactly the
fixed-fractional size (so it is a function of equity, risk and stop
distance, not a constant). -/
theorem size_position_spec (cfg : EngineConfig) (equity risk_pct stop_dist price cur : ℚ)
    (hd : 0 < stop_dist) (hp : 0 < price) :
    size_position cfg equity risk_pct stop_dist price cur ≤ equity * risk_pct / stop_dist ∧
    size_position cfg equity risk_pct stop_dist price cur * price ≤ cfg.max_notional ∧
    cur + size_position cfg equity risk_pct stop_dist price cur * price ≤ cfg.max_exposure ∧
    (equity * risk_pct / stop_dist * price ≤ cfg.max_notional →
      cur + equity * risk_pct / stop_dist * price ≤ cfg.max_exposure →
      size_position cfg equity risk_pct stop_dist price cur =
        equity * risk_pct / stop_dist) := by
  refine ⟨min_le_left _ _, ?_, ?_, fun h1 h2 => ?_⟩
  · have h : size_position cfg equity risk_pct stop_dist price cur ≤
        cfg.max_notional / price :=
      (min_le_right _ _).trans (min_le_left _ _)
    exact (le_div_iff₀ hp).mp h
  · have h : size_position cfg equity risk_pct stop_dist price cur ≤
        (cfg.max_exposure - cur) / price :=
      (min_le_right _ _).trans (min_le_right _ _)
    have := (le_div_iff₀ hp).mp h
    linarith
  · have hb : equity * risk_pct / stop_dist ≤ cfg.max_notional / price :=
      (le_div_iff₀ hp).mpr h1
    have hc : equity * risk_pct / stop_dist ≤ (cfg.max_exposure - cur) / price :=
      (le_div_iff₀ hp).mpr (by linarith)
    exact min_eq_left (le_min hb hc)


/-- Closed instance of C6: at equity $1000, risk 1%, stop distance $2,
price $10 and no prior exposure, the size is exactly the unclamped
fixed-fractional size. -/
theorem size_position_spec_witness :
    size_position exCfg 1000 (1/100) 2 10 0 = 1000 * (1/100) / 2 :=
  (size_position_spec exCfg 1000 (1/100) 2 10 0 (by norm_num) (by norm_num)).2.2.2
    (by norm_num [exCfg]) (by norm_num [exCfg])


/-- C7: the consecutive-loss counter increments exactly on losing closed
trades and resets to zero on winning ones; with a positive backoff step
the cooldown after one more consecutive loss is strictly longer, or both
are pinned at the configured maximum; and no step other than EXIT
processing touches the counter. -/
theorem loser_suppression (cfg : EngineConfig) (losses : Nat) (pnl : ℚ)
    (hstep : 1 ≤ cfg.cooldown_step) :
    (pnl < 0 → lossesAfter losses pnl = losses + 1) ∧
    (0 < pnl → lossesAfter losses pnl = 0) ∧
    (cooldownDuration cfg losses < cooldownDuration cfg (losses + 1) ∨
      (cooldownDuration cfg (losses + 1) = cfg.cooldown_max ∧
        cooldownDuration cfg losses = cfg.cooldown_max)) ∧
    (∀ (e : Engine) (t : Tick), e.state ≠ .EXIT →
      (step e t).consecutive_losses = e.consecutive_losses) := by
  refine ⟨fun h => by simp [lossesAfter, h], fun h => ?_, ?_, fun e t h => ?_⟩
  · have : ¬pnl < 0 := by linarith
    simp [lossesAfter, this]
  · simp only [cooldownDuration, Nat.mul_succ]
    omega
  · cases hs : e.state
    case EXIT => exact absurd hs h
    all_goals
      simp only [step, hs] <;> (repeat' split) <;> simp


/-- Closed instance of C7: one loss from a clean slate increments the
counter, and the following cooldown is strictly longer (max not yet
reached). -/
theorem loser_suppression_witness :
    lossesAfter 0 (-1) = 0 + 1 ∧
    (cooldownDuration exCfg 0 < cooldownDuration exCfg (0 + 1) ∨
      (cooldownDuration exCfg (0 + 1) = exCfg.cooldown_max ∧
        cooldownDuration exCfg 0 = exCfg.cooldown_max)) :=
  ⟨(loser_suppression exCfg 0 (-1) (by norm_num [exCfg])).1 (by norm_num),
   (loser_suppression exCfg 0 (-1) (by norm_num [exCfg])).2.2.1⟩


/-- C8: when ARM confirms persistence but `validate_entry` rejects, the
engine neither throws (the step is a total function) nor dies: it
transitions to COOLDOWN exactly when the rejection reason is the active
cooldown and to WAIT otherwise, creates no position, and emits no
record. -/
theorem risk_rejection_nonfatal (e : Engine) (t : Tick) (r : RejectReason)
    (hs : e.state = .ARM)
    (hd : t.sigDir = e.armDir) (hth : e.cfg.arm_threshold ≤ t.sigStrength)
    (hacc : 0 ≤ t.accel)
    (hconf : e.cfg.arm_persistence ≤ e.armCount + 1)
    (hrej : validate_entry e.cfg t e.openPositions.length = .rejected r) :
    (step e t).state = (if r = .inCooldown then EngineState.COOLDOWN else .WAIT) ∧
    (step e t).openPositions = e.openPositions ∧
    (step e t).records = e.records := by
  simp only [step, hs]
  rw [if_pos ⟨hd, hth, hacc⟩, if_pos hconf, hrej]
  cases r <;> simp


/-- Closed instance of C8: a cooldown rejection sends the armed engine to
COOLDOWN with no position and no record. -/
theorem risk_rejection_nonfatal_witness :
    (step armEngine cooldownTick).state =
      (if RejectReason.inCooldown = .inCooldown then EngineState.COOLDOWN else .WAIT) ∧
    (step armEngine cooldownTick).openPositions = armEngine.openPositions ∧
    (step armEngine cooldownTick).records = armEngine.records :=
  risk_rejection_nonfatal armEngine cooldownTick .inCooldown rfl rfl
    (by norm_num [armEngine, cooldownTick, exCfg, mkTick, initEngine])
    (by norm_num [cooldownTick, mkTick])
    (by norm_num [armEngine, exCfg, initEngine])
    (by norm_num [validate_entry, armEngine, cooldownTick, exCfg, mkTick, initEngine])


/-- Constructor disequalities used when evaluating concrete steps. -/
theorem long_ne_none : Direction.LONG ≠ Direction.NONE := by decide


/-- Constructor disequalities used when evaluating concrete steps. -/
theorem long_ne_short : Direction.LONG ≠ Direction.SHORT := by decide


/-- Constructor disequalities used when evaluating concrete steps. -/
theorem trending_ne_chop : Regime.TRENDING ≠ Regime.CHOP := by decide


/-- Tick 1 of the example run arms the engine. -/
theorem exStep1 : step (initEngine exCfg 1000) (mkTick 10 .LONG 1) = exE1 := by
  norm_num [step, initEngine, mkTick, exCfg, exE1, long_ne_none]


/-- Tick 2 of the example run confirms persistence and the entry is
approved. -/
theorem exStep2 : step exE1 (mkTick 10 .LONG 1) = exE2 := by
  norm_num [step, initEngine, mkTick, exCfg, exE1, exE2, validate_entry,
    long_ne_none, trending_ne_chop]


/-- Tick 3 of the example run opens the position. -/
theorem exStep3 : step exE2 (mkTick 10 .LONG 1) = exE3 := by
  norm_num [step, initEngine, mkTick, exCfg, exE1, exE2, exE3, exPos, armSide,
    entryPosition, stopDistance, atrMultiplier, size_position, long_ne_short]


/-- Tick 4 of the example run breaches the $8 stop. -/
theorem exStep4 : step exE3 (mkTick 7 .LONG 1) = exE4 := by
  norm_num [step, initEngine, mkTick, exCfg, exE1, exE2, exE3, exE4, exPos,
    exPosBreach, updateWatermarks, stopBreached]


/-- Tick 5 of the example run closes the trade and emits the record. -/
theorem exStep5 : step exE4 (mkTick 7 .LONG 1) = exE5 := by
  norm_num [step, initEngine, mkTick, exCfg, exE1, exE2, exE3, exE4, exE5,
    exPos, exPosBreach, closeTrade, lossesAfter, cooldownDuration, exRecord]


/-- The example run's emitted records, evaluated stepwise. -/
theorem run_exTicks_records :
    (run (initEngine exCfg 1000) exTicks).records = [exRecord] := by
  show (run (initEngine exCfg 1000)
    (mkTick 10 .LONG 1 :: mkTick 10 .LONG 1 :: mkTick 10 .LONG 1 ::
      mkTick 7 .LONG 1 :: mkTick 7 .LONG 1 :: [])).records = [exRecord]
  rw [run, exStep1, run, exStep2, run, exStep3, run, exStep4, run, exStep5, run]
  simp [exE5]


/-- Closed instance of C4: the breaching HOLD tick of the example run
keeps the long position's stop unchanged (in particular, does not lower
it). -/
theorem stop_monotonic_witness :
    exPosBreach.side = exPos.side ∧
    (exPos.side = .long → exPos.stop_price ≤ exPosBreach.stop_price) ∧
    (exPos.side = .short → exPosBreach.stop_price ≤ exPos.stop_price) :=
  stop_monotonic exE3 (mkTick 7 .LONG 1) exPos exPosBreach rfl rfl
    (by rw [exStep4]; rfl)


/-- C9: every TradeRecord in the record log of any replay from a
freshly-initialized engine carries an exit_reason from the closed set
{STOP_LOSS, SIGNAL_DECAY, TAKE_PROFIT, END_OF_RUN}. -/
theorem exit_reason_closed_set (cfg : EngineConfig) (q0 : ℚ) (ticks : List Tick)
    (r : TradeRecord) (hr : r ∈ (run (initEngine cfg q0) ticks).records) :
    r.exit_reason = .STOP_LOSS ∨ r.exit_reason = .SIGNAL_DECAY ∨
      r.exit_reason = .TAKE_PROFIT ∨ r.exit_reason = .END_OF_RUN := by
  cases r.exit_reason <;> simp


/-- Closed instance of C9: the example run's emitted record is in the
closed set. -/
theorem exit_reason_closed_set_witness :
    exRecord.exit_reason = .STOP_LOSS ∨ exRecord.exit_reason = .SIGNAL_DECAY ∨
      exRecord.exit_reason = .TAKE_PROFIT ∨ exRecord.exit_reason = .END_OF_RUN :=
  exit_reason_closed_set exCfg 1000 exTicks exRecord
    (by rw [run_exTicks_records]; simp)


/-- C10: for a non-empty list of closed trades the dashboard's winRate is
100 times the count of trades with pnl strictly greater than 0 divided by
the total count; zero and missing pnl values count as non-wins; and for an
empty list the guarded division is never performed: winRate and totalPnL
are both 0. -/
theorem fetchStats_winRate (closedTrades : List (Option ℚ))
    (h : closedTrades ≠ []) :
    winRate closedTrades = 100 * (wins closedTrades : ℚ) / (closedTrades.length : ℚ) ∧
    winRate ([] : List (Option ℚ)) = 0 ∧
    totalPnL ([] : List (Option ℚ)) = 0 ∧
    wins (some 0 :: closedTrades) = wins closedTrades ∧
    wins (none :: closedTrades) = wins closedTrades := by
  refine ⟨?_, by simp [winRate], rfl, ?_, ?_⟩
  · have hl : 0 < closedTrades.length := List.length_pos.mpr h
    simp only [winRate, if_pos hl]
    ring
  · simp [wins, coercePnl]
  · simp [wins, coercePnl]


/-- Closed instance of C10 on the one-trade list `[some 1]`. -/
theorem fetchStats_winRate_witness :
    winRate [some 1] = 100 * (wins [some 1] : ℚ) / (([some 1] : List (Option ℚ)).length : ℚ) ∧
    winRate ([] : List (Option ℚ)) = 0 ∧
    totalPnL ([] : List (Option ℚ)) = 0 ∧
    wins (some 0 :: [some 1]) = wins [some 1] ∧
    wins (none :: [some 1]) = wins [some 1] :=
  fetchStats_winRate [some 1] (by simp)
end AiTrader
